import Mathlib

/-!
Shallow embedding of the Bookish Library v2 data layer and its satellite
modules (js/data.js, js/utils.js, the api module, the duplicates module),
together with theorems settling the specification claims.

JavaScript values are modelled as follows: strings are Lean `String`,
possibly-undefined values are `Option`, arrays are `List`, thrown
exceptions are `Except String` carrying the thrown message, and the
`localStorage` backend together with the in-memory mirror is the explicit
state `DSState`.  Impure inputs (`generateId`, `getCurrentTimestamp`,
whether `localStorage.setItem` succeeds, the fetch outcome, the result of
a `confirm` dialog) are passed as explicit parameters.  String primitives
(`toLowerCase`, `trim`, `includes`, relational comparison) are re-implemented
over `String.data` so that every definition evaluates inside the kernel.
-/

/-- Model of the JavaScript whitespace class used by `trim` and the
regular expression class `\s` (restricted to the ASCII range, which covers
every string the repository manipulates). -/
def wsChar (c : Char) : Bool :=
  c = ' ' || c = '\t' || c = '\n' || c = '\r' || c = '\x0B' || c = '\x0C'

/-- Model of `String.prototype.toLowerCase` (ASCII range). -/
def lowerStr (s : String) : String :=
  ⟨s.data.map Char.toLower⟩

/-- Model of `String.prototype.trim`: drop whitespace from both ends. -/
def trimStr (s : String) : String :=
  ⟨((s.data.dropWhile wsChar).reverse.dropWhile wsChar).reverse⟩

/-- The needle occurs at the very front of the haystack. -/
def leadMatch : List Char → List Char → Bool
  | [], _ => true
  | _ :: _, [] => false
  | a :: as, b :: bs => a = b && leadMatch as bs

/-- The needle occurs somewhere in the haystack. -/
def subMatch : List Char → List Char → Bool
  | needle, [] => needle.isEmpty
  | needle, c :: rest => leadMatch needle (c :: rest) || subMatch needle rest

/-- Model of `String.prototype.includes`. -/
def includesStr (hay needle : String) : Bool :=
  subMatch needle.data hay.data

/-- Lexicographic comparison of character lists by code point, the model of
the JavaScript `<` operator on strings. -/
def chLt : List Char → List Char → Bool
  | [], [] => false
  | [], _ :: _ => true
  | _ :: _, [] => false
  | a :: as, b :: bs =>
      if a.toNat < b.toNat then true
      else if b.toNat < a.toNat then false
      else chLt as bs

/-- Model of the JavaScript `<` operator on strings. -/
def strLt (s t : String) : Bool :=
  chLt s.data t.data

/-- Model of the JavaScript expression `x || d` for a possibly-undefined
string `x`: the empty string and `undefined` are both falsy. -/
def jsOr (o : Option String) (d : String) : String :=
  match o with
  | none => d
  | some s => if s = "" then d else s

/-- Truthiness of a possibly-undefined string. -/
def optTruthy (o : Option String) : Bool :=
  match o with
  | none => false
  | some s => !(s = "")

/-- Model of `Array.prototype.join` with the given separator. -/
def joinSep (sep : String) : List String → String
  | [] => ""
  | [x] => x
  | x :: y :: rest => x ++ sep ++ joinSep sep (y :: rest)

/-- A stored book record, as built by `DataStore.addBook` in js/data.js.
Every field of a stored record is a present string (or list of strings for
`formats`). -/
structure Book where
  id : String
  title : String
  author : String
  status : String
  genre : String
  fictionType : String
  difficulty : String
  formats : List String
  notes : String
  isbn : String
  publicationDate : String
  acquiredDate : String
  coverUrl : String
  addedAt : String
deriving DecidableEq, Repr

/-- Raw candidate data handed to `addBook` / `updateBook` / `importBooks`:
any field may be absent (`undefined`). -/
structure BookData where
  title : Option String := none
  author : Option String := none
  status : Option String := none
  genre : Option String := none
  fictionType : Option String := none
  difficulty : Option String := none
  formats : Option (List String) := none
  notes : Option String := none
  isbn : Option String := none
  publicationDate : Option String := none
  acquiredDate : Option String := none
  coverUrl : Option String := none
deriving DecidableEq, Repr

/-- Strip hyphens and whitespace from an ISBN, the model of
`isbn.replace(/[-\s]/g, "")` in js/utils.js `cleanISBN` / `isValidISBN`. -/
def stripISBN (s : String) : String :=
  ⟨s.data.filter (fun c => !(c = '-' || wsChar c))⟩

/-- All characters are decimal digits, the model of a `\d` match. -/
def allDigits (s : String) : Bool :=
  s.data.all Char.isDigit

/-- Model of js/utils.js `isValidISBN`: an absent or empty ISBN is valid;
otherwise the cleaned form must be exactly 10 or 13 digits. -/
def isValidISBN (isbn : Option String) : Bool :=
  match isbn with
  | none => true
  | some s =>
      if s = "" then true
      else
        let cleaned := stripISBN s
        (allDigits cleaned && cleaned.data.length = 10) ||
        (allDigits cleaned && cleaned.data.length = 13)

/-- Result record of js/utils.js `validateBook`. -/
structure ValidationResult where
  isValid : Bool
  errors : List String
deriving DecidableEq, Repr

/-- Model of js/utils.js `validateBook`: pushes one stable message per
violated rule, in source order, then reports validity as emptiness of the
error list. -/
def validateBook (book : BookData) : ValidationResult :=
  let errors : List String :=
    (if trimStr (book.title.getD "") = "" then ["Title is required"] else []) ++
    (if trimStr (book.author.getD "") = "" then ["Author is required"] else []) ++
    (if book.genre.getD "" = "" then ["Genre is required"] else []) ++
    (if book.fictionType.getD "" = "" then ["Fiction Type is required"] else []) ++
    (if book.difficulty.getD "" = "" then ["Difficulty is required"] else []) ++
    (if book.status.getD "" = "" then ["Status is required"] else []) ++
    (if (book.formats.getD []).isEmpty then ["At least one format is required"] else []) ++
    (if optTruthy book.isbn && !isValidISBN book.isbn then ["Invalid ISBN format"] else [])
  { isValid := errors.isEmpty, errors := errors }

/-- State of the persistence adapter in js/data.js: the in-memory mirror
`books` (the `this.books` array) and the `localStorage` backend contents
`backend` (the parsed value stored under the fixed key). -/
structure DSState where
  books : List Book
  backend : List Book
deriving DecidableEq, Repr

/-- Message thrown by `DataStore.saveToStorage` when the backend write
fails. -/
def storageFullMsg : String :=
  "Failed to save books. Your browser storage may be full."

/-- The stored record built by `DataStore.addBook` from validated data:
trims title, author, notes, isbn and coverUrl, copies the enumerated
fields, copies the formats array, and stamps `id` and `addedAt`. -/
def mkBook (newId now : String) (bd : BookData) : Book :=
  { id := newId
    title := trimStr (bd.title.getD "")
    author := trimStr (bd.author.getD "")
    status := bd.status.getD ""
    genre := bd.genre.getD ""
    fictionType := bd.fictionType.getD ""
    difficulty := bd.difficulty.getD ""
    formats := bd.formats.getD []
    notes := jsOr (bd.notes.map trimStr) ""
    isbn := jsOr (bd.isbn.map trimStr) ""
    publicationDate := jsOr bd.publicationDate ""
    acquiredDate := jsOr bd.acquiredDate ""
    coverUrl := jsOr (bd.coverUrl.map trimStr) ""
    addedAt := now }

/-- Model of `DataStore.addBook`.  The source pushes the new record onto
`this.books` and only then calls `saveToStorage`; when the backend write
throws, the push is not rolled back, which the model renders by returning
the mutated mirror together with the thrown message.  `newId` models
`generateId()`, `now` models `getCurrentTimestamp()`, and `saveOk` models
whether `localStorage.setItem` succeeds. -/
def addBook (newId now : String) (saveOk : Bool) (s : DSState) (bd : BookData) :
    DSState × Except String Book :=
  let v := validateBook bd
  if v.isValid then
    let book := mkBook newId now bd
    let newBooks := s.books ++ [book]
    if saveOk then ({ books := newBooks, backend := newBooks }, .ok book)
    else ({ s with books := newBooks }, .error storageFullMsg)
  else (s, .error (joinSep ", " v.errors))

/-- The record written by `DataStore.updateBook` over an existing record:
`id` and `addedAt` are taken from the existing record, every other field
from the new data, exactly as in `addBook`. -/
def updatedBook (old : Book) (bd : BookData) : Book :=
  mkBook old.id old.addedAt bd

/-- Replace the first element satisfying `p` by `f` applied to it,
returning the new list and the old element; the model of
`findIndex` followed by an indexed assignment. -/
def replaceFirst (p : Book → Bool) (f : Book → Book) : List Book → Option (List Book × Book)
  | [] => none
  | b :: rest =>
      if p b then some (f b :: rest, b)
      else
        match replaceFirst p f rest with
        | none => none
        | some (l, old) => some (b :: l, old)

/-- Remove the first element satisfying `p`, returning the new list and the
removed element; the model of `findIndex` followed by `splice(index, 1)`. -/
def removeFirst (p : Book → Bool) : List Book → Option (List Book × Book)
  | [] => none
  | b :: rest =>
      if p b then some (rest, b)
      else
        match removeFirst p rest with
        | none => none
        | some (l, d) => some (b :: l, d)

/-- Model of `DataStore.updateBook`: `findIndex` by id (throwing
`Book not found` on a miss), validation (throwing the joined messages),
in-place replacement preserving `id` and `addedAt`, then the save. -/
def updateBook (id : String) (saveOk : Bool) (s : DSState) (bd : BookData) :
    DSState × Except String Book :=
  match replaceFirst (fun b => b.id = id) (fun old => updatedBook old bd) s.books with
  | none => (s, .error "Book not found")
  | some (newBooks, old) =>
      let v := validateBook bd
      if v.isValid then
        if saveOk then ({ books := newBooks, backend := newBooks }, .ok (updatedBook old bd))
        else ({ s with books := newBooks }, .error storageFullMsg)
      else (s, .error (joinSep ", " v.errors))

/-- Model of `DataStore.deleteBook`: `findIndex` by id (throwing
`Book not found` on a miss), `splice`, then the save. -/
def deleteBook (id : String) (saveOk : Bool) (s : DSState) :
    DSState × Except String Book :=
  match removeFirst (fun b => b.id = id) s.books with
  | none => (s, .error "Book not found")
  | some (newBooks, deleted) =>
      if saveOk then ({ books := newBooks, backend := newBooks }, .ok deleted)
      else ({ s with books := newBooks }, .error storageFullMsg)

/-- Duplicate test used by `DataStore.importBooks`: lowercased (but not
trimmed) equality of title and author against any current book; an absent
title or author never matches, since in the source `undefined` compares
unequal to any string. -/
def isDuplicateOf (books : List Book) (bd : BookData) : Bool :=
  books.any (fun ex =>
    (bd.title.map lowerStr = some (lowerStr ex.title)) &&
    (bd.author.map lowerStr = some (lowerStr ex.author)))

/-- The defaults table applied by `DataStore.importBooks` before running
the add path.  The source applies `||` defaults, so an empty string is
replaced like an absent one, while an explicitly empty formats array is
truthy and kept. -/
def completeBookData (bd : BookData) : BookData :=
  { title := some (jsOr bd.title "Untitled")
    author := some (jsOr bd.author "Unknown Author")
    status := some (jsOr bd.status "unread")
    genre := some (jsOr bd.genre "Uncategorized")
    fictionType := some (jsOr bd.fictionType "Nonfiction")
    difficulty := some (jsOr bd.difficulty "Moderate")
    formats := some (bd.formats.getD ["physical"])
    notes := some (jsOr bd.notes "")
    isbn := some (jsOr bd.isbn "")
    publicationDate := some (jsOr bd.publicationDate "")
    acquiredDate := some (jsOr bd.acquiredDate "")
    coverUrl := some (jsOr bd.coverUrl "") }

/-- Counters returned by `DataStore.importBooks`. -/
structure ImportResult where
  imported : Nat
  skipped : Nat
  total : Nat
deriving DecidableEq, Repr

/-- The `forEach` loop of `DataStore.importBooks`: each record is skipped
as a duplicate, imported through the add path, or skipped because the add
path threw; the thrown error is caught per record and the loop continues.
`ids` supplies the value of `generateId()` for the i-th record. -/
def importLoop (ids : Nat → String) (now : String) (saveOk : Bool) :
    DSState → Nat → Nat → Nat → List BookData → DSState × Nat × Nat
  | s, _, imp, skp, [] => (s, imp, skp)
  | s, i, imp, skp, bd :: rest =>
      if isDuplicateOf s.books bd then
        importLoop ids now saveOk s (i + 1) imp (skp + 1) rest
      else
        match addBook (ids i) now saveOk s (completeBookData bd) with
        | (s1, .ok _) => importLoop ids now saveOk s1 (i + 1) (imp + 1) skp rest
        | (s1, .error _) => importLoop ids now saveOk s1 (i + 1) imp (skp + 1) rest

/-- Model of `DataStore.importBooks` on a well-formed array argument. -/
def importBooks (ids : Nat → String) (now : String) (saveOk : Bool)
    (s : DSState) (batch : List BookData) : DSState × ImportResult :=
  let r := importLoop ids now saveOk s 0 0 0 batch
  (r.1, { imported := r.2.1, skipped := r.2.2, total := batch.length })

/-- Filter criteria handed to `DataStore.filterBooks`; any field may be
absent. -/
structure Criteria where
  fictionType : Option String := none
  genre : Option String := none
  status : Option String := none
  search : Option String := none
  formats : Option (List String) := none
deriving Repr

/-- The search predicate of `DataStore.filterBooks` (and `searchBooks`):
lowercase and trim the query, then test substring containment against the
lowercased title, author, genre, notes and fictionType. -/
def matchesSearch (q : String) (b : Book) : Bool :=
  let lq := trimStr (lowerStr q)
  includesStr (lowerStr b.title) lq ||
  includesStr (lowerStr b.author) lq ||
  includesStr (lowerStr b.genre) lq ||
  includesStr (lowerStr b.notes) lq ||
  includesStr (lowerStr b.fictionType) lq

/-- Model of `DataStore.filterBooks`: a chain of five conditional filter
passes over a copy of the collection, each pass guarded by truthiness of
its criterion (for formats, by the array being present and non-empty). -/
def filterBooks (c : Criteria) (books : List Book) : List Book :=
  let f0 := books
  let f1 := if optTruthy c.fictionType then
              f0.filter (fun b => b.fictionType = c.fictionType.getD "")
            else f0
  let f2 := if optTruthy c.genre then
              f1.filter (fun b => b.genre = c.genre.getD "")
            else f1
  let f3 := if optTruthy c.status then
              f2.filter (fun b => b.status = c.status.getD "")
            else f2
  let f4 := match c.formats with
            | some fs =>
                if fs.length > 0 then
                  f3.filter (fun b => fs.all (fun fmt => b.formats.contains fmt))
                else f3
            | none => f3
  let f5 := if optTruthy c.search then
              f4.filter (matchesSearch (c.search.getD ""))
            else f4
  f5

/-- The sortable fields of a book row; `a[sortBy]` in the source. -/
inductive SortField
  | title
  | author
  | genre
  | status
  | fictionType
  | difficulty
  | notes
  | isbn
  | publicationDate
  | acquiredDate
  | coverUrl
  | addedAt
  | bookId
  | formats
deriving DecidableEq, Repr

/-- Field access `a[sortBy]`, with the special case joining the formats
array into a display string. -/
def fieldVal (b : Book) : SortField → String
  | .title => b.title
  | .author => b.author
  | .genre => b.genre
  | .status => b.status
  | .fictionType => b.fictionType
  | .difficulty => b.difficulty
  | .notes => b.notes
  | .isbn => b.isbn
  | .publicationDate => b.publicationDate
  | .acquiredDate => b.acquiredDate
  | .coverUrl => b.coverUrl
  | .addedAt => b.addedAt
  | .bookId => b.id
  | .formats => joinSep ", " b.formats

/-- Comparison key of `DataStore.sortBooks`: the field value lowercased
(every sortable field of a stored book is a string). -/
def sortKeyVal (f : SortField) (b : Book) : String :=
  lowerStr (fieldVal b f)

/-- `a` may precede `b` under the ascending comparator of
`DataStore.sortBooks`: the comparator returns a non-positive value, i.e.
the key of `b` is not below the key of `a`. -/
def ascLe (f : SortField) (a b : Book) : Bool :=
  !(strLt (sortKeyVal f b) (sortKeyVal f a))

/-- `a` may precede `b` under the descending comparator (the ascending
comparator with its sign flipped). -/
def descLe (f : SortField) (a b : Book) : Bool :=
  !(strLt (sortKeyVal f a) (sortKeyVal f b))

/-- Model of `DataStore.sortBooks`: copy the list and sort it with the
comparator; the sort is modelled by `mergeSort`, a stable
comparison sort agreeing with the engine sort the source relies on. -/
def sortBooks (books : List Book) (f : SortField) (ascending : Bool) : List Book :=
  books.mergeSort (if ascending then ascLe f else descLe f)

/-- Shape of the parsed JSON body returned by the lookup endpoint:
`{success, book?}` with every book field possibly absent. -/
structure ApiBook where
  title : Option String := none
  author : Option String := none
  isbn : Option String := none
  publicationDate : Option String := none
  coverUrl : Option String := none
  categories : Option (List String) := none
  source : Option String := none
deriving DecidableEq, Repr

/-- Parsed response body of the lookup endpoint. -/
structure ApiResult where
  success : Bool
  book : Option ApiBook
deriving DecidableEq, Repr

/-- Outcome of the `fetch` + `response.json()` pair in `lookupISBN`:
either a parsed body or a transport failure (network error or unparsable
body), which the source catches and rethrows as its lookup error. -/
inductive FetchOutcome
  | reply (r : ApiResult)
  | networkFailure
deriving DecidableEq, Repr

/-- The normalized record returned by a successful `lookupISBN`. -/
structure LookupBook where
  title : String
  author : String
  isbn : String
  publicationDate : String
  coverUrl : String
  categories : List String
  source : Option String
deriving DecidableEq, Repr

/-- Message thrown by `lookupISBN` on a transport failure. -/
def lookupFailMsg : String :=
  "Failed to lookup ISBN. Please check your internet connection."

/-- Model of `lookupISBN` in the api module: a transport failure is caught
and rethrown as the lookup error; a body with `success` and a `book` is
normalized field by field with `||` defaults (note `isbn` defaults to the
queried ISBN and `source` is copied with no default); anything else
returns `null`, the not-found result. -/
def lookupISBN (isbn : String) (outcome : FetchOutcome) :
    Except String (Option LookupBook) :=
  match outcome with
  | .networkFailure => .error lookupFailMsg
  | .reply r =>
      match r.book with
      | some book =>
          if r.success then
            .ok (some
              { title := jsOr book.title ""
                author := jsOr book.author ""
                isbn := jsOr book.isbn isbn
                publicationDate := jsOr book.publicationDate ""
                coverUrl := jsOr book.coverUrl ""
                categories := book.categories.getD []
                source := book.source })
          else .ok none
      | none => .ok none

/-- A matched genre classification. -/
structure Classification where
  genre : String
  fictionType : String
deriving DecidableEq, Repr

/-- Model of `autoClassifyGenre` in the api module: a first-match-wins
keyword cascade over the lowercased space-join of the categories. -/
def autoClassifyGenre (categories : List String) : Option Classification :=
  if categories.isEmpty then none
  else
    let s := joinSep " " (categories.map lowerStr)
    if includesStr s "literary" || includesStr s "literature" then
      some ⟨"Literary Fiction", "Fiction"⟩
    else if includesStr s "mystery" || includesStr s "thriller" || includesStr s "detective" then
      some ⟨"Mystery/Thriller", "Fiction"⟩
    else if includesStr s "science fiction" || includesStr s "sci-fi" then
      some ⟨"Science Fiction", "Fiction"⟩
    else if includesStr s "fantasy" then
      some ⟨"Fantasy", "Fiction"⟩
    else if includesStr s "romance" then
      some ⟨"Romance", "Fiction"⟩
    else if includesStr s "historical fiction" then
      some ⟨"Historical Fiction", "Fiction"⟩
    else if includesStr s "horror" then
      some ⟨"Horror", "Fiction"⟩
    else if includesStr s "biography" || includesStr s "memoir" then
      some ⟨"Biography/Memoir", "Nonfiction"⟩
    else if includesStr s "history" then
      some ⟨"History", "Nonfiction"⟩
    else if includesStr s "science" && !(includesStr s "fiction") then
      some ⟨"Science", "Nonfiction"⟩
    else if includesStr s "philosophy" then
      some ⟨"Philosophy", "Nonfiction"⟩
    else if includesStr s "business" || includesStr s "economics" then
      some ⟨"Business", "Nonfiction"⟩
    else if includesStr s "self-help" || includesStr s "self help" then
      some ⟨"Self-Help", "Nonfiction"⟩
    else if includesStr s "true crime" then
      some ⟨"True Crime", "Nonfiction"⟩
    else if includesStr s "essay" then
      some ⟨"Essay Collection", "Nonfiction"⟩
    else if includesStr s "politics" || includesStr s "political" then
      some ⟨"Politics/Current Events", "Nonfiction"⟩
    else if includesStr s "poetry" then
      some ⟨"Poetry", "Nonfiction"⟩
    else if includesStr s "graphic novel" || includesStr s "comics" then
      some ⟨"Graphic Novel", "Fiction"⟩
    else if includesStr s "young adult" then
      some ⟨"Young Adult", "Fiction"⟩
    else if includesStr s "fiction" then
      some ⟨"Literary Fiction", "Fiction"⟩
    else none

/-- Model of `findDuplicate` in the duplicates module: first stored book
whose lowercased, trimmed title and author both match. -/
def findDuplicate (title author : String) (books : List Book) : Option Book :=
  books.find? (fun b =>
    (trimStr (lowerStr b.title) = trimStr (lowerStr title)) &&
    (trimStr (lowerStr b.author) = trimStr (lowerStr author)))

/-- Insertion-order deduplication, the model of `[...new Set(l)]`. -/
def jsSetAux : List String → List String → List String
  | _, [] => []
  | seen, x :: rest =>
      if seen.contains x then jsSetAux seen rest
      else x :: jsSetAux (x :: seen) rest

/-- Model of `[...new Set(l)]`. -/
def jsSetDedup (l : List String) : List String :=
  jsSetAux [] l

/-- Model of `addFormatToBook` in the duplicates module.  The source
builds the update payload by reading `book.fiction_type`,
`book.publication_date`, `book.acquired_date` and `book.cover_url` — all
snake_case properties that do not exist on the camelCase stored record —
so those payload fields are `undefined`, rendered here as `none`.  The
`try`/`catch` around the update call is rendered by returning the
(unchanged on throw) state together with the caught message. -/
def addFormatToBook (saveOk : Bool) (book : Book) (s : DSState) :
    DSState × Except String Unit :=
  let updatedFormats := jsSetDedup (book.formats ++ ["physical"])
  let payload : BookData :=
    { title := some book.title
      author := some book.author
      status := some book.status
      genre := some book.genre
      fictionType := none
      difficulty := some book.difficulty
      formats := some updatedFormats
      notes := some book.notes
      isbn := some book.isbn
      publicationDate := none
      acquiredDate := none
      coverUrl := none }
  match updateBook book.id saveOk s payload with
  | (s1, .ok _) => (s1, .ok ())
  | (s1, .error e) => (s1, .error e)

/-- Decision skeleton of `handleDuplicate` in the duplicates module.
`userAccepts` models the result of the `confirm` dialog.  The returned
Bool is the source return value: `true` means the duplicate was handled
and the caller must stop its normal auto-fill-and-save flow, `false`
means that flow should continue.  Form pre-filling is DOM work outside
the data model and is not represented. -/
def handleDuplicate (userAccepts : Bool) (saveOk : Bool) (existing : Book)
    (s : DSState) : DSState × Bool :=
  if existing.formats.contains "physical" then
    if userAccepts then (s, false) else (s, true)
  else
    if userAccepts then
      let r := addFormatToBook saveOk existing s
      (r.1, true)
    else (s, false)

/-- Rule table of the specification cascade, in the exact precedence order
listed in the spec: each entry pairs a keyword test on the lowercased
joined categories with the classification produced when it is the first
match. -/
def specRules : List ((String → Bool) × Classification) :=
  [ (fun s => includesStr s "literary" || includesStr s "literature",
      ⟨"Literary Fiction", "Fiction"⟩),
    (fun s => includesStr s "mystery" || includesStr s "thriller" || includesStr s "detective",
      ⟨"Mystery/Thriller", "Fiction"⟩),
    (fun s => includesStr s "science fiction" || includesStr s "sci-fi",
      ⟨"Science Fiction", "Fiction"⟩),
    (fun s => includesStr s "fantasy", ⟨"Fantasy", "Fiction"⟩),
    (fun s => includesStr s "romance", ⟨"Romance", "Fiction"⟩),
    (fun s => includesStr s "historical fiction", ⟨"Historical Fiction", "Fiction"⟩),
    (fun s => includesStr s "horror", ⟨"Horror", "Fiction"⟩),
    (fun s => includesStr s "biography" || includesStr s "memoir",
      ⟨"Biography/Memoir", "Nonfiction"⟩),
    (fun s => includesStr s "history", ⟨"History", "Nonfiction"⟩),
    (fun s => includesStr s "science" && !(includesStr s "fiction"),
      ⟨"Science", "Nonfiction"⟩),
    (fun s => includesStr s "philosophy", ⟨"Philosophy", "Nonfiction"⟩),
    (fun s => includesStr s "business" || includesStr s "economics",
      ⟨"Business", "Nonfiction"⟩),
    (fun s => includesStr s "self-help" || includesStr s "self help",
      ⟨"Self-Help", "Nonfiction"⟩),
    (fun s => includesStr s "true crime", ⟨"True Crime", "Nonfiction"⟩),
    (fun s => includesStr s "essay", ⟨"Essay Collection", "Nonfiction"⟩),
    (fun s => includesStr s "politics" || includesStr s "political",
      ⟨"Politics/Current Events", "Nonfiction"⟩),
    (fun s => includesStr s "poetry", ⟨"Poetry", "Nonfiction"⟩),
    (fun s => includesStr s "graphic novel" || includesStr s "comics",
      ⟨"Graphic Novel", "Fiction"⟩),
    (fun s => includesStr s "young adult", ⟨"Young Adult", "Fiction"⟩),
    (fun s => includesStr s "fiction", ⟨"Literary Fiction", "Fiction"⟩) ]

/-- First matching rule wins. -/
def firstHit : List ((String → Bool) × Classification) → String → Option Classification
  | [], _ => none
  | (p, c) :: rest, s => if p s then some c else firstHit rest s

/-- The classification function as the spec words it: a deterministic
ordered keyword-matching cascade over the lowercased join of the
categories, first matching rule wins, none when nothing matches or the
category list is empty. -/
def specClassify (cats : List String) : Option Classification :=
  if cats.isEmpty then none
  else firstHit specRules (joinSep " " (cats.map lowerStr))

/-- C7: `autoClassifyGenre` is exactly the deterministic first-match-wins
keyword cascade over the lowercased join of the input categories in the
precedence order the spec lists, and in particular classifies
`["Mystery", "Thriller"]` as Mystery/Thriller Fiction and `["Cooking"]`
as none. -/
theorem autoClassifyGenre_is_spec_cascade :
    (∀ cats, autoClassifyGenre cats = specClassify cats) ∧
    autoClassifyGenre ["Mystery", "Thriller"] =
      some { genre := "Mystery/Thriller", fictionType := "Fiction" } ∧
    autoClassifyGenre ["Cooking"] = none :=
  ⟨fun _ => rfl, rfl, rfl⟩

/-- An existing stored record holding only the kindle format, used to
exercise the merge branch of the duplicate workflow. -/
def duneBook : Book :=
  { id := "book-1", title := "Dune", author := "Frank Herbert", status := "read",
    genre := "Science Fiction", fictionType := "Fiction", difficulty := "Moderate",
    formats := ["kindle"], notes := "", isbn := "", publicationDate := "",
    acquiredDate := "", coverUrl := "", addedAt := "t0" }

/-- Adapter state holding exactly the kindle-only record. -/
def sDune : DSState := { books := [duneBook], backend := [duneBook] }

/-- C2 (evaluation at the failing input): when the merge branch is chosen
for a kindle-only existing record, the update payload is built from
snake_case properties absent on the camelCase record, so the update path
rejects it with a validation error, the record keeps formats
`["kindle"]` (the physical format is never merged), and the workflow
still reports that the caller must stop. -/
theorem mergeBranch_never_updates_existing_record :
    handleDuplicate true true duneBook sDune = (sDune, true) ∧
    (addFormatToBook true duneBook sDune).2 = .error "Fiction Type is required" ∧
    (addFormatToBook true duneBook sDune).1 = sDune ∧
    duneBook.formats = ["kindle"] :=
  ⟨rfl, rfl, rfl, rfl⟩

/-- A stored record used to exercise the import duplicate key. -/
def hobbitBook : Book :=
  { id := "book-0", title := "the hobbit", author := "tolkien", status := "unread",
    genre := "Fantasy", fictionType := "Fiction", difficulty := "Moderate",
    formats := ["kindle"], notes := "", isbn := "", publicationDate := "",
    acquiredDate := "", coverUrl := "", addedAt := "t0" }

/-- Adapter state holding exactly `hobbitBook`. -/
def sHobbit : DSState := { books := [hobbitBook], backend := [hobbitBook] }

/-- An import record differing from `hobbitBook` only by a leading space
in the title. -/
def paddedHobbit : BookData :=
  { title := some " the hobbit", author := some "tolkien" }

/-- The record the add path persists for `paddedHobbit` (title trimmed,
defaults applied). -/
def importedHobbit : Book :=
  { id := "book-1", title := "the hobbit", author := "tolkien", status := "unread",
    genre := "Uncategorized", fictionType := "Nonfiction", difficulty := "Moderate",
    formats := ["physical"], notes := "", isbn := "", publicationDate := "",
    acquiredDate := "", coverUrl := "", addedAt := "t1" }

/-- C10: importing a record that differs from a stored book only by
leading whitespace of the title is not skipped (the import duplicate key
lowercases but does not trim), yet the add path trims the title, so the
store ends up with two records that the `findDuplicate` normalization
(lowercase and trim) considers duplicates of each other. -/
theorem importBooks_and_findDuplicate_disagree_on_padding :
    (importBooks (fun _ => "book-1") "t1" true sHobbit [paddedHobbit]).2 =
      { imported := 1, skipped := 0, total := 1 } ∧
    (importBooks (fun _ => "book-1") "t1" true sHobbit [paddedHobbit]).1.books =
      [hobbitBook, importedHobbit] ∧
    findDuplicate importedHobbit.title importedHobbit.author [hobbitBook] =
      some hobbitBook ∧
    trimStr (lowerStr (paddedHobbit.title.getD "")) = trimStr (lowerStr hobbitBook.title) :=
  ⟨rfl, rfl, rfl, rfl⟩

/-- C4 (counterexample): on a successful response whose book object has
every field absent, the mapped record does not default every absent field
to empty — `isbn` is defaulted to the queried ISBN instead. -/
theorem lookupISBN_absent_isbn_not_empty :
    lookupISBN "1234567890" (.reply { success := true, book := some {} }) =
      .ok (some { title := "", author := "", isbn := "1234567890",
                  publicationDate := "", coverUrl := "", categories := [],
                  source := none }) ∧
    ("1234567890" : String) ≠ "" :=
  ⟨rfl, by decide⟩

/-- C4 (amended): a successful response maps to the record
`{title, author, isbn, publicationDate, coverUrl, categories, source}`
where title, author, publicationDate and coverUrl default to the empty
string, categories to the empty list, `isbn` to the queried ISBN, and
`source` is copied through with no default; a non-success response (or a
response without a book object) yields the not-found result rather than
an error; a transport failure raises the lookup error, which is distinct
from not-found. -/
theorem lookupISBN_response_mapping (isbn : String) :
    lookupISBN isbn .networkFailure = .error lookupFailMsg ∧
    (∀ r : ApiResult, r.success = false → lookupISBN isbn (.reply r) = .ok none) ∧
    (∀ r : ApiResult, r.book = none → lookupISBN isbn (.reply r) = .ok none) ∧
    (∀ (r : ApiResult) (bk : ApiBook), r.success = true → r.book = some bk →
      lookupISBN isbn (.reply r) =
        .ok (some { title := jsOr bk.title "", author := jsOr bk.author "",
                    isbn := jsOr bk.isbn isbn,
                    publicationDate := jsOr bk.publicationDate "",
                    coverUrl := jsOr bk.coverUrl "",
                    categories := bk.categories.getD [],
                    source := bk.source })) ∧
    lookupISBN isbn .networkFailure ≠ .ok none := by
  refine ⟨rfl, ?_, ?_, ?_, by simp [lookupISBN]⟩
  · intro r hs
    cases hb : r.book <;> simp [lookupISBN, hb, hs]
  · intro r hb
    simp [lookupISBN, hb]
  · intro r bk hs hb
    simp [lookupISBN, hb, hs]

/-- C4 witness: the amended mapping evaluated on a concrete success
response carrying only a title. -/
theorem lookupISBN_response_mapping_witness :
    lookupISBN "0141439513" (.reply { success := true, book := some { title := some "Emma" } }) =
      .ok (some { title := "Emma", author := "", isbn := "0141439513",
                  publicationDate := "", coverUrl := "", categories := [],
                  source := none }) :=
  (lookupISBN_response_mapping "0141439513").2.2.2.1
    { success := true, book := some { title := some "Emma" } }
    { title := some "Emma" } rfl rfl

/-- A fully valid candidate record. -/
def bdSample : BookData :=
  { title := some "Dune", author := some "Frank Herbert", status := some "unread",
    genre := some "Science Fiction", fictionType := some "Fiction",
    difficulty := some "Moderate", formats := some ["physical"] }

/-- C1 (counterexample): starting from an empty adapter, a valid add whose
backend write fails leaves the in-memory mirror mutated — the new record
is in the mirror although the operation failed, so the mirror is not what
it was before the call. -/
theorem addBook_failed_write_mutates_mirror :
    (addBook "book-9" "t9" false { books := [], backend := [] } bdSample).2 =
      .error storageFullMsg ∧
    (addBook "book-9" "t9" false { books := [], backend := [] } bdSample).1.books ≠
      ([] : List Book) :=
  ⟨rfl, by decide⟩

/-- C1 (amended): the adapter mutates the mirror before attempting the
backend write and does not roll back on failure: for add, update and
delete, the mirror after a failed write equals the mirror after a
successful one, while the backend is left untouched; and whenever a call
returns successfully the backend equals the mirror. -/
theorem adapter_mutates_mirror_before_write (newId now id : String) (s : DSState)
    (bd : BookData) :
    ((addBook newId now false s bd).1.books = (addBook newId now true s bd).1.books ∧
      (addBook newId now false s bd).1.backend = s.backend) ∧
    ((updateBook id false s bd).1.books = (updateBook id true s bd).1.books ∧
      (updateBook id false s bd).1.backend = s.backend) ∧
    ((deleteBook id false s).1.books = (deleteBook id true s).1.books ∧
      (deleteBook id false s).1.backend = s.backend) ∧
    (∀ (ok : Bool) (b : Book), (addBook newId now ok s bd).2 = .ok b →
      (addBook newId now ok s bd).1.backend = (addBook newId now ok s bd).1.books) ∧
    (∀ (ok : Bool) (b : Book), (updateBook id ok s bd).2 = .ok b →
      (updateBook id ok s bd).1.backend = (updateBook id ok s bd).1.books) ∧
    (∀ (ok : Bool) (b : Book), (deleteBook id ok s).2 = .ok b →
      (deleteBook id ok s).1.backend = (deleteBook id ok s).1.books) := by
  refine ⟨?_, ?_, ?_, ?_, ?_, ?_⟩
  · by_cases hv : (validateBook bd).isValid <;> simp [addBook, hv]
  · cases hr : replaceFirst (fun b => b.id = id) (fun old => updatedBook old bd) s.books with
    | none => simp [updateBook, hr]
    | some pair =>
        by_cases hv : (validateBook bd).isValid <;> simp [updateBook, hr, hv]
  · cases hr : removeFirst (fun b => b.id = id) s.books with
    | none => simp [deleteBook, hr]
    | some pair => simp [deleteBook, hr]
  · intro ok b h
    cases ok with
    | false =>
        exfalso
        by_cases hv : (validateBook bd).isValid <;> simp [addBook, hv] at h
    | true =>
        by_cases hv : (validateBook bd).isValid <;> simp [addBook, hv] at h ⊢
  · intro ok b h
    cases hr : replaceFirst (fun b => b.id = id) (fun old => updatedBook old bd) s.books with
    | none => simp [updateBook, hr] at h
    | some pair =>
        cases ok with
        | false =>
            exfalso
            by_cases hv : (validateBook bd).isValid <;> simp [updateBook, hr, hv] at h
        | true =>
            by_cases hv : (validateBook bd).isValid <;> simp [updateBook, hr, hv] at h ⊢
  · intro ok b h
    cases hr : removeFirst (fun b => b.id = id) s.books with
    | none => simp [deleteBook, hr] at h
    | some pair =>
        cases ok with
        | false => simp [deleteBook, hr] at h
        | true => simp [deleteBook, hr]

/-- C1 witness: the amended theorem applied to a concrete successful add
on the empty adapter. -/
theorem adapter_mutates_mirror_before_write_witness :
    (addBook "book-9" "t9" true { books := [], backend := [] } bdSample).2 =
      .ok (mkBook "book-9" "t9" bdSample) ∧
    (addBook "book-9" "t9" true { books := [], backend := [] } bdSample).1.backend =
      (addBook "book-9" "t9" true { books := [], backend := [] } bdSample).1.books :=
  ⟨rfl,
    (adapter_mutates_mirror_before_write "book-9" "t9" "x"
        { books := [], backend := [] } bdSample).2.2.2.1 true
      (mkBook "book-9" "t9" bdSample) rfl⟩

/-- A miss in `replaceFirst` means no element satisfies the test. -/
theorem replaceFirst_eq_none {p : Book → Bool} {f : Book → Book} :
    ∀ {l : List Book}, (∀ b ∈ l, p b = false) → replaceFirst p f l = none := by
  intro l
  induction l with
  | nil => intro _; rfl
  | cons b rest ih =>
      intro h
      have hb : p b = false := h b (List.mem_cons_self b rest)
      have hrest : replaceFirst p f rest = none :=
        ih (fun x hx => h x (List.mem_cons_of_mem b hx))
      simp [replaceFirst, hb, hrest]

/-- `replaceFirst` rewrites exactly the first hit, leaving the prefix and
the suffix untouched. -/
theorem replaceFirst_split {p : Book → Bool} {f : Book → Book} :
    ∀ (pre : List Book) (old : Book) (post : List Book),
      (∀ b ∈ pre, p b = false) → p old = true →
      replaceFirst p f (pre ++ old :: post) = some (pre ++ f old :: post, old) := by
  intro pre
  induction pre with
  | nil =>
      intro old post _ hold
      simp [replaceFirst, hold]
  | cons b rest ih =>
      intro old post hpre hold
      have hb : p b = false := hpre b (List.mem_cons_self b rest)
      have := ih old post (fun x hx => hpre x (List.mem_cons_of_mem b hx)) hold
      simp [replaceFirst, hb, this]

/-- The survivor list of `removeFirst` is a sublist of the input. -/
theorem removeFirst_sublist {p : Book → Bool} :
    ∀ {l l' : List Book} {d : Book}, removeFirst p l = some (l', d) → l'.Sublist l := by
  intro l
  induction l with
  | nil => intro l' d h; simp [removeFirst] at h
  | cons b rest ih =>
      intro l' d h
      cases hb : p b with
      | true =>
          simp [removeFirst, hb] at h
          rw [← h.1]
          exact List.sublist_cons_self b rest
      | false =>
          cases hr : removeFirst p rest with
          | none => simp [removeFirst, hb, hr] at h
          | some pair =>
              obtain ⟨l2, d2⟩ := pair
              simp [removeFirst, hb, hr] at h
              rw [← h.1]
              exact (ih hr).cons₂ b

/-- C9: `updateBook` fails with the not-found error when no stored book
has the id and does not touch the state; on a hit with valid data it
replaces exactly the matched record, keeping its `id` and `addedAt` and
taking every other field from the new data; and no adapter operation
rewrites the identity of any other stored record — `addBook` leaves all
previous entries in place and `deleteBook` keeps a sublist of them. -/
theorem updateBook_preserves_identity (id newId now : String) (saveOk : Bool)
    (s : DSState) (bd : BookData) :
    ((∀ b ∈ s.books, b.id ≠ id) →
      updateBook id saveOk s bd = (s, .error "Book not found")) ∧
    (∀ (pre : List Book) (old : Book) (post : List Book),
      s.books = pre ++ old :: post → (∀ b ∈ pre, b.id ≠ id) → old.id = id →
      (validateBook bd).isValid = true →
      (updateBook id true s bd).1.books = pre ++ updatedBook old bd :: post ∧
      (updateBook id true s bd).2 = .ok (updatedBook old bd) ∧
      (updatedBook old bd).id = old.id ∧
      (updatedBook old bd).addedAt = old.addedAt) ∧
    ((addBook newId now saveOk s bd).1.books.take s.books.length = s.books) ∧
    ((deleteBook id saveOk s).1.books.Sublist s.books) := by
  refine ⟨?_, ?_, ?_, ?_⟩
  · intro h
    have hnone : replaceFirst (fun b => b.id = id) (fun old => updatedBook old bd) s.books =
        none := by
      apply replaceFirst_eq_none
      intro b hb
      simp [h b hb]
    simp [updateBook, hnone]
  · intro pre old post hsplit hpre hold hv
    have hsome : replaceFirst (fun b => b.id = id) (fun o => updatedBook o bd) s.books =
        some (pre ++ updatedBook old bd :: post, old) := by
      rw [hsplit]
      apply replaceFirst_split pre old post
      · intro b hb
        simp [hpre b hb]
      · simp [hold]
    refine ⟨?_, ?_, rfl, rfl⟩
    · simp [updateBook, hsome, hv]
    · simp [updateBook, hsome, hv]
  · by_cases hv : (validateBook bd).isValid
    · cases saveOk <;> simp [addBook, hv, List.take_left]
    · simp [addBook, hv, List.take_length]
  · cases hr : removeFirst (fun b => b.id = id) s.books with
    | none => simp [deleteBook, hr]
    | some pair =>
        have hsub : pair.1.Sublist s.books :=
          removeFirst_sublist (by rw [hr, Prod.mk.eta])
        cases saveOk <;> simp [deleteBook, hr, hsub]

/-- C9 witness: the contract applied to a concrete one-book store with a
concrete valid replacement. -/
theorem updateBook_preserves_identity_witness :
    (updateBook "book-0" true sHobbit bdSample).1.books =
      [updatedBook hobbitBook bdSample] ∧
    (updatedBook hobbitBook bdSample).id = hobbitBook.id ∧
    (updatedBook hobbitBook bdSample).addedAt = hobbitBook.addedAt :=
  have h :=
    (updateBook_preserves_identity "book-0" "n" "t" true sHobbit bdSample).2.1
      [] hobbitBook [] rfl (by intro b hb; cases hb) rfl (by decide)
  ⟨h.1, h.2.2.1, h.2.2.2⟩

/-- Each loop iteration increments exactly one of the two counters, so
their sum grows by exactly the number of records processed. -/
theorem importLoop_counts (ids : Nat → String) (now : String) (saveOk : Bool) :
    ∀ (batch : List BookData) (s : DSState) (i imp skp : Nat),
      (importLoop ids now saveOk s i imp skp batch).2.1 +
        (importLoop ids now saveOk s i imp skp batch).2.2 =
      imp + skp + batch.length := by
  intro batch
  induction batch with
  | nil => intro s i imp skp; simp [importLoop]
  | cons bd rest ih =>
      intro s i imp skp
      cases hdup : isDuplicateOf s.books bd with
      | true =>
          have hstep : importLoop ids now saveOk s i imp skp (bd :: rest) =
              importLoop ids now saveOk s (i + 1) imp (skp + 1) rest := by
            simp [importLoop, hdup]
          rw [hstep, ih]
          simp only [List.length_cons]
          omega
      | false =>
          cases hadd : addBook (ids i) now saveOk s (completeBookData bd) with
          | mk s1 r =>
              cases r with
              | ok b =>
                  have hstep : importLoop ids now saveOk s i imp skp (bd :: rest) =
                      importLoop ids now saveOk s1 (i + 1) (imp + 1) skp rest := by
                    simp [importLoop, hdup, hadd]
                  rw [hstep, ih]
                  simp only [List.length_cons]
                  omega
              | error e =>
                  have hstep : importLoop ids now saveOk s i imp skp (bd :: rest) =
                      importLoop ids now saveOk s1 (i + 1) imp (skp + 1) rest := by
                    simp [importLoop, hdup, hadd]
                  rw [hstep, ih]
                  simp only [List.length_cons]
                  omega

/-- The first import record of the concrete batch: a duplicate of
`hobbitBook` up to letter case. -/
def importDemoDup : BookData :=
  { title := some "The Hobbit", author := some "Tolkien" }

/-- The second import record of the concrete batch: a novel record
carrying only a title and an author. -/
def importDemoNovel : BookData :=
  { title := some "New Book", author := some "Someone" }

/-- The record the add path persists for `importDemoNovel`: every missing
field filled with the documented default. -/
def importDemoStored : Book :=
  { id := "book-1", title := "New Book", author := "Someone", status := "unread",
    genre := "Uncategorized", fictionType := "Nonfiction", difficulty := "Moderate",
    formats := ["physical"], notes := "", isbn := "", publicationDate := "",
    acquiredDate := "", coverUrl := "", addedAt := "t1" }

/-- C3: `importBooks` always reports `total` as the batch length with
`imported + skipped = total`; a record whose lowercased title and author
match a current book is skipped without touching the state; a record
whose add path throws is counted as one more skipped record and the loop
continues with the state the failed add left behind; and on the concrete
batch of one duplicate and one novel record it returns
`{imported := 1, skipped := 1, total := 2}`, storing the novel record
with the documented defaults applied. -/
theorem importBooks_counts_skips_defaults (ids : Nat → String) (now : String)
    (saveOk : Bool) (s : DSState) (batch : List BookData) :
    ((importBooks ids now saveOk s batch).2.total = batch.length ∧
      (importBooks ids now saveOk s batch).2.imported +
        (importBooks ids now saveOk s batch).2.skipped =
        (importBooks ids now saveOk s batch).2.total) ∧
    (∀ (s2 : DSState) (i imp skp : Nat) (bd : BookData) (rest : List BookData),
      isDuplicateOf s2.books bd = true →
      importLoop ids now saveOk s2 i imp skp (bd :: rest) =
        importLoop ids now saveOk s2 (i + 1) imp (skp + 1) rest) ∧
    (∀ (s2 : DSState) (i imp skp : Nat) (bd : BookData) (rest : List BookData)
        (e : String),
      isDuplicateOf s2.books bd = false →
      (addBook (ids i) now saveOk s2 (completeBookData bd)).2 = .error e →
      importLoop ids now saveOk s2 i imp skp (bd :: rest) =
        importLoop ids now saveOk
          (addBook (ids i) now saveOk s2 (completeBookData bd)).1
          (i + 1) imp (skp + 1) rest) ∧
    ((importBooks (fun _ => "book-1") "t1" true sHobbit
        [importDemoDup, importDemoNovel]).2 =
      { imported := 1, skipped := 1, total := 2 } ∧
      (importBooks (fun _ => "book-1") "t1" true sHobbit
        [importDemoDup, importDemoNovel]).1.books = [hobbitBook, importDemoStored]) := by
  refine ⟨⟨rfl, ?_⟩, ?_, ?_, rfl, rfl⟩
  · have h := importLoop_counts ids now saveOk batch s 0 0 0
    simpa [importBooks] using h
  · intro s2 i imp skp bd rest hdup
    simp [importLoop, hdup]
  · intro s2 i imp skp bd rest e hdup herr
    have heta : addBook (ids i) now saveOk s2 (completeBookData bd) =
        ((addBook (ids i) now saveOk s2 (completeBookData bd)).1, .error e) := by
      rw [← herr]
    simp only [importLoop, hdup, Bool.false_eq_true, if_false]
    rw [heta]

/-- C3 witness: the duplicate-skip equation applied to the concrete
duplicate record over the concrete store. -/
theorem importBooks_counts_skips_defaults_witness :
    importLoop (fun _ => "book-1") "t1" true sHobbit 0 0 0 [importDemoDup] =
      importLoop (fun _ => "book-1") "t1" true sHobbit 1 0 1 [] :=
  (importBooks_counts_skips_defaults (fun _ => "book-1") "t1" true sHobbit
      []).2.1 sHobbit 0 0 0 importDemoDup [] (by decide)

/-- Spec rule: title non-empty after trim. -/
abbrev specTitleOk (b : BookData) : Prop := trimStr (b.title.getD "") ≠ ""

/-- Spec rule: author non-empty after trim. -/
abbrev specAuthorOk (b : BookData) : Prop := trimStr (b.author.getD "") ≠ ""

/-- Spec rule: genre non-empty. -/
abbrev specGenreOk (b : BookData) : Prop := b.genre.getD "" ≠ ""

/-- Spec rule: fictionType non-empty. -/
abbrev specFictionTypeOk (b : BookData) : Prop := b.fictionType.getD "" ≠ ""

/-- Spec rule: difficulty non-empty. -/
abbrev specDifficultyOk (b : BookData) : Prop := b.difficulty.getD "" ≠ ""

/-- Spec rule: status non-empty. -/
abbrev specStatusOk (b : BookData) : Prop := b.status.getD "" ≠ ""

/-- Spec rule: formats non-empty. -/
abbrev specFormatsOk (b : BookData) : Prop := b.formats.getD [] ≠ []

/-- Spec rule: if an ISBN is provided it must normalize to 10 or 13
digits; an empty or absent ISBN is valid. -/
abbrev specIsbnOk (b : BookData) : Prop :=
  optTruthy b.isbn = true → isValidISBN b.isbn = true

/-- C5: `validateBook` collects exactly one stable message per violated
rule, in the field-declaration order (title, author, genre, fictionType,
difficulty, status, formats, isbn), without short-circuiting; it reports
validity exactly when no rule is violated (so every valid book yields no
errors); and any book missing the title receives an error mentioning
Title. -/
theorem validateBook_collects_all_violations (b : BookData) :
    ((validateBook b).errors =
      (if specTitleOk b then [] else ["Title is required"]) ++
      (if specAuthorOk b then [] else ["Author is required"]) ++
      (if specGenreOk b then [] else ["Genre is required"]) ++
      (if specFictionTypeOk b then [] else ["Fiction Type is required"]) ++
      (if specDifficultyOk b then [] else ["Difficulty is required"]) ++
      (if specStatusOk b then [] else ["Status is required"]) ++
      (if specFormatsOk b then [] else ["At least one format is required"]) ++
      (if specIsbnOk b then [] else ["Invalid ISBN format"])) ∧
    ((validateBook b).isValid = true ↔ (validateBook b).errors = []) ∧
    (¬ specTitleOk b →
      "Title is required" ∈ (validateBook b).errors ∧
      includesStr "Title is required" "Title" = true) := by
  have e1 : (if trimStr (b.title.getD "") = "" then ["Title is required"]
        else ([] : List String)) =
      (if specTitleOk b then [] else ["Title is required"]) := by
    by_cases h : trimStr (b.title.getD "") = "" <;> simp [h]
  have e2 : (if trimStr (b.author.getD "") = "" then ["Author is required"]
        else ([] : List String)) =
      (if specAuthorOk b then [] else ["Author is required"]) := by
    by_cases h : trimStr (b.author.getD "") = "" <;> simp [h]
  have e3 : (if b.genre.getD "" = "" then ["Genre is required"]
        else ([] : List String)) =
      (if specGenreOk b then [] else ["Genre is required"]) := by
    by_cases h : b.genre.getD "" = "" <;> simp [h]
  have e4 : (if b.fictionType.getD "" = "" then ["Fiction Type is required"]
        else ([] : List String)) =
      (if specFictionTypeOk b then [] else ["Fiction Type is required"]) := by
    by_cases h : b.fictionType.getD "" = "" <;> simp [h]
  have e5 : (if b.difficulty.getD "" = "" then ["Difficulty is required"]
        else ([] : List String)) =
      (if specDifficultyOk b then [] else ["Difficulty is required"]) := by
    by_cases h : b.difficulty.getD "" = "" <;> simp [h]
  have e6 : (if b.status.getD "" = "" then ["Status is required"]
        else ([] : List String)) =
      (if specStatusOk b then [] else ["Status is required"]) := by
    by_cases h : b.status.getD "" = "" <;> simp [h]
  have e7 : (if (b.formats.getD []).isEmpty then ["At least one format is required"]
        else ([] : List String)) =
      (if specFormatsOk b then [] else ["At least one format is required"]) := by
    by_cases h : b.formats.getD [] = [] <;> simp [h, List.isEmpty_iff]
  have e8 : (if optTruthy b.isbn && !isValidISBN b.isbn then ["Invalid ISBN format"]
        else ([] : List String)) =
      (if specIsbnOk b then [] else ["Invalid ISBN format"]) := by
    by_cases h1 : optTruthy b.isbn = true <;> by_cases h2 : isValidISBN b.isbn = true <;>
      simp [specIsbnOk, h1, h2]
  have herr : (validateBook b).errors =
      (if specTitleOk b then [] else ["Title is required"]) ++
      (if specAuthorOk b then [] else ["Author is required"]) ++
      (if specGenreOk b then [] else ["Genre is required"]) ++
      (if specFictionTypeOk b then [] else ["Fiction Type is required"]) ++
      (if specDifficultyOk b then [] else ["Difficulty is required"]) ++
      (if specStatusOk b then [] else ["Status is required"]) ++
      (if specFormatsOk b then [] else ["At least one format is required"]) ++
      (if specIsbnOk b then [] else ["Invalid ISBN format"]) := by
    show (validateBook b).errors = _
    rw [show (validateBook b).errors =
        (if trimStr (b.title.getD "") = "" then ["Title is required"] else []) ++
        (if trimStr (b.author.getD "") = "" then ["Author is required"] else []) ++
        (if b.genre.getD "" = "" then ["Genre is required"] else []) ++
        (if b.fictionType.getD "" = "" then ["Fiction Type is required"] else []) ++
        (if b.difficulty.getD "" = "" then ["Difficulty is required"] else []) ++
        (if b.status.getD "" = "" then ["Status is required"] else []) ++
        (if (b.formats.getD []).isEmpty then ["At least one format is required"] else []) ++
        (if optTruthy b.isbn && !isValidISBN b.isbn then ["Invalid ISBN format"] else [])
      from rfl]
    rw [e1, e2, e3, e4, e5, e6, e7, e8]
  refine ⟨herr, ?_, ?_⟩
  · have hv : (validateBook b).isValid = (validateBook b).errors.isEmpty := rfl
    rw [hv]
    exact List.isEmpty_iff
  · intro h
    refine ⟨?_, by decide⟩
    rw [herr]
    simp [h]

/-- C5 witness: a record missing its title is reported with the Title
message, and a fully valid record yields no errors. -/
theorem validateBook_collects_all_violations_witness :
    ("Title is required" ∈ (validateBook { author := some "A" }).errors ∧
      includesStr "Title is required" "Title" = true) ∧
    (validateBook bdSample).errors = [] :=
  ⟨(validateBook_collects_all_violations { author := some "A" }).2.2 (by decide),
    by decide⟩

/-- The fictionType criterion as an unconditional predicate: no
constraint when the criterion is absent or empty. -/
def critFT (c : Criteria) (b : Book) : Bool :=
  !optTruthy c.fictionType || (b.fictionType = c.fictionType.getD "")

/-- The genre criterion as an unconditional predicate. -/
def critGenre (c : Criteria) (b : Book) : Bool :=
  !optTruthy c.genre || (b.genre = c.genre.getD "")

/-- The status criterion as an unconditional predicate. -/
def critStatus (c : Criteria) (b : Book) : Bool :=
  !optTruthy c.status || (b.status = c.status.getD "")

/-- The formats criterion as an unconditional predicate: when a non-empty
formats list is given, the book must contain every listed format. -/
def critFormats (c : Criteria) (b : Book) : Bool :=
  match c.formats with
  | none => true
  | some fs =>
      if fs.length > 0 then fs.all (fun fmt => b.formats.contains fmt) else true

/-- The search criterion as an unconditional predicate. -/
def critSearch (c : Criteria) (b : Book) : Bool :=
  !optTruthy c.search || matchesSearch (c.search.getD "") b

/-- The criteria record with every field absent. -/
def emptyCriteria : Criteria := {}

/-- A guarded filter pass equals an unguarded filter by the
fictionType predicate. -/
theorem filterStepFT (c : Criteria) (l : List Book) :
    (if optTruthy c.fictionType then
        l.filter (fun b => b.fictionType = c.fictionType.getD "")
      else l) = l.filter (fun b => critFT c b) := by
  cases h : optTruthy c.fictionType <;> simp [critFT, h]

/-- A guarded filter pass equals an unguarded filter by the genre
predicate. -/
theorem filterStepGenre (c : Criteria) (l : List Book) :
    (if optTruthy c.genre then
        l.filter (fun b => b.genre = c.genre.getD "")
      else l) = l.filter (fun b => critGenre c b) := by
  cases h : optTruthy c.genre <;> simp [critGenre, h]

/-- A guarded filter pass equals an unguarded filter by the status
predicate. -/
theorem filterStepStatus (c : Criteria) (l : List Book) :
    (if optTruthy c.status then
        l.filter (fun b => b.status = c.status.getD "")
      else l) = l.filter (fun b => critStatus c b) := by
  cases h : optTruthy c.status <;> simp [critStatus, h]

/-- A guarded filter pass equals an unguarded filter by the formats
predicate. -/
theorem filterStepFormats (c : Criteria) (l : List Book) :
    (match c.formats with
      | some fs =>
          if fs.length > 0 then
            l.filter (fun b => fs.all (fun fmt => b.formats.contains fmt))
          else l
      | none => l) = l.filter (fun b => critFormats c b) := by
  cases hf : c.formats with
  | none => simp [critFormats, hf]
  | some fs =>
      by_cases hl : fs.length > 0 <;> simp [critFormats, hf, hl]

/-- A guarded filter pass equals an unguarded filter by the search
predicate. -/
theorem filterStepSearch (c : Criteria) (l : List Book) :
    (if optTruthy c.search then l.filter (matchesSearch (c.search.getD "")) else l) =
      l.filter (fun b => critSearch c b) := by
  cases h : optTruthy c.search <;> simp [critSearch, h]

/-- Five chained filter passes collapse to one filter by the conjunction
of the five predicates. -/
theorem filter_chain (p1 p2 p3 p4 p5 : Book → Bool) (l : List Book) :
    ((((l.filter p1).filter p2).filter p3).filter p4).filter p5 =
      l.filter (fun b => p1 b && p2 b && p3 b && p4 b && p5 b) := by
  simp only [List.filter_filter]
  apply List.filter_congr
  intro x _
  cases p1 x <;> cases p2 x <;> cases p3 x <;> cases p4 x <;> cases p5 x <;> rfl

/-- `filterBooks` as one filter by the AND of the five criterion
predicates. -/
theorem filterBooks_eq_filter (c : Criteria) (books : List Book) :
    filterBooks c books =
      books.filter (fun b =>
        critFT c b && critGenre c b && critStatus c b &&
        critFormats c b && critSearch c b) := by
  simp only [filterBooks]
  rw [filterStepFT, filterStepGenre, filterStepStatus, filterStepFormats,
    filterStepSearch, filter_chain]

/-- C6: `filterBooks` AND-combines the five independent criterion
predicates, an absent or empty criterion imposes no constraint (filtering
with all-empty criteria returns the collection unchanged), and a formats
criterion admits only books containing every listed format. -/
theorem filterBooks_and_semantics (c : Criteria) (books : List Book) :
    (filterBooks c books =
      books.filter (fun b =>
        critFT c b && critGenre c b && critStatus c b &&
        critFormats c b && critSearch c b)) ∧
    (filterBooks emptyCriteria books = books) ∧
    (∀ (fs : List String) (b : Book), c.formats = some fs →
      b ∈ filterBooks c books → ∀ fmt ∈ fs, b.formats.contains fmt = true) := by
  refine ⟨filterBooks_eq_filter c books, ?_, ?_⟩
  · rw [filterBooks_eq_filter]
    simp [critFT, critGenre, critStatus, critFormats, critSearch, emptyCriteria,
      optTruthy]
  · intro fs b hfs hb fmt hmem
    rw [filterBooks_eq_filter] at hb
    have hp := (List.mem_filter.mp hb).2
    simp only [Bool.and_eq_true] at hp
    have hfor : critFormats c b = true := hp.1.2
    cases fs with
    | nil => cases hmem
    | cons f0 fsr =>
        simp only [critFormats, hfs] at hfor
        simp at hfor
        rcases hfor with ⟨h0, hr⟩
        cases hmem with
        | head => simpa using h0
        | tail _ hm => simpa using hr fmt hm

/-- A stored record carrying both the physical and the kindle formats. -/
def bothFormatsBook : Book :=
  { id := "book-5", title := "Both", author := "A", status := "unread",
    genre := "Fantasy", fictionType := "Fiction", difficulty := "Moderate",
    formats := ["physical", "kindle"], notes := "", isbn := "",
    publicationDate := "", acquiredDate := "", coverUrl := "", addedAt := "t0" }

/-- C6 witness: the formats conjunct applied to a concrete store filtered
by the physical-and-kindle criterion. -/
theorem filterBooks_and_semantics_witness :
    bothFormatsBook.formats.contains "physical" = true ∧
    bothFormatsBook.formats.contains "kindle" = true :=
  ⟨(filterBooks_and_semantics { formats := some ["physical", "kindle"] }
        [bothFormatsBook]).2.2 ["physical", "kindle"] bothFormatsBook rfl
      (by decide) "physical" (by decide),
    (filterBooks_and_semantics { formats := some ["physical", "kindle"] }
        [bothFormatsBook]).2.2 ["physical", "kindle"] bothFormatsBook rfl
      (by decide) "kindle" (by decide)⟩

/-- Two strings with the same character list are equal. -/
theorem strDataEq : ∀ s t : String, s.data = t.data → s = t := by
  intro s t h
  cases s
  cases t
  exact congrArg String.mk h

/-- The string order is asymmetric. -/
theorem chLt_asymm : ∀ s t : List Char, chLt s t = true → chLt t s = false := by
  intro s
  induction s with
  | nil =>
      intro t h
      cases t with
      | nil => simp [chLt] at h
      | cons b bs => rfl
  | cons a as ih =>
      intro t h
      cases t with
      | nil => simp [chLt] at h
      | cons b bs =>
          by_cases h1 : a.toNat < b.toNat
          · have h2 : ¬ b.toNat < a.toNat := by omega
            simp [chLt, h1, h2]
          · by_cases h2 : b.toNat < a.toNat
            · simp [chLt, h1, h2] at h
            · have hrec := ih bs (by simpa [chLt, h1, h2] using h)
              simp [chLt, h1, h2, hrec]

/-- The string order is transitive. -/
theorem chLt_trans : ∀ s t u : List Char,
    chLt s t = true → chLt t u = true → chLt s u = true := by
  intro s
  induction s with
  | nil =>
      intro t u h1 h2
      cases u with
      | nil =>
          cases t with
          | nil => simp [chLt] at h1
          | cons x xs => simp [chLt] at h2
      | cons y ys => rfl
  | cons a as ih =>
      intro t u h1 h2
      cases t with
      | nil => simp [chLt] at h1
      | cons b bs =>
          cases u with
          | nil => simp [chLt] at h2
          | cons c cs =>
              by_cases hab : a.toNat < b.toNat
              · by_cases hbc : b.toNat < c.toNat
                · have hac : a.toNat < c.toNat := by omega
                  simp [chLt, hac]
                · by_cases hcb : c.toNat < b.toNat
                  · simp [chLt, hbc, hcb] at h2
                  · have hac : a.toNat < c.toNat := by omega
                    simp [chLt, hac]
              · by_cases hba : b.toNat < a.toNat
                · simp [chLt, hab, hba] at h1
                · have h1r : chLt as bs = true := by simpa [chLt, hab, hba] using h1
                  by_cases hbc : b.toNat < c.toNat
                  · have hac : a.toNat < c.toNat := by omega
                    simp [chLt, hac]
                  · by_cases hcb : c.toNat < b.toNat
                    · simp [chLt, hbc, hcb] at h2
                    · have h2r : chLt bs cs = true := by simpa [chLt, hbc, hcb] using h2
                      have hac : ¬ a.toNat < c.toNat := by omega
                      have hca : ¬ c.toNat < a.toNat := by omega
                      simp [chLt, hac, hca, ih bs cs h1r h2r]

/-- Two strings neither of which is below the other are equal. -/
theorem chLt_total_eq : ∀ s t : List Char,
    chLt s t = false → chLt t s = false → s = t := by
  intro s
  induction s with
  | nil =>
      intro t h1 h2
      cases t with
      | nil => rfl
      | cons b bs => simp [chLt] at h1
  | cons a as ih =>
      intro t h1 h2
      cases t with
      | nil => simp [chLt] at h2
      | cons b bs =>
          by_cases hab : a.toNat < b.toNat
          · simp [chLt, hab] at h1
          · by_cases hba : b.toNat < a.toNat
            · simp [chLt, hba] at h2
            · have h1r : chLt as bs = false := by simpa [chLt, hab, hba] using h1
              have h2r : chLt bs as = false := by simpa [chLt, hab, hba] using h2
              have hnum : a.toNat = b.toNat := by omega
              have hchar : a = b := Char.ext (UInt32.ext hnum)
              rw [hchar, ih bs h1r h2r]

/-- Negative transitivity of the string order. -/
theorem chLt_negtrans : ∀ x y z : List Char,
    chLt y x = false → chLt z y = false → chLt z x = false := by
  intro x y z h1 h2
  cases h : chLt z x with
  | false => rfl
  | true =>
      exfalso
      cases hy : chLt x y with
      | true =>
          have hzy := chLt_trans z x y h hy
          rw [h2] at hzy
          cases hzy
      | false =>
          have hxy := chLt_total_eq x y hy h1
          rw [hxy] at h
          rw [h2] at h
          cases h

/-- C8: `sortBooks` returns a permutation of its input (the source copies
the array before sorting, so the input is never mutated), and on any
collection whose books have pairwise-distinct key values the descending
sort is exactly the reverse of the ascending sort. -/
theorem sortBooks_perm_and_reverse (books : List Book) (f : SortField) :
    (∀ asc : Bool, (sortBooks books f asc).Perm books) ∧
    (List.Pairwise (fun a b => sortKeyVal f a ≠ sortKeyVal f b) books →
      sortBooks books f false = (sortBooks books f true).reverse) := by
  have hperm : ∀ asc : Bool, (sortBooks books f asc).Perm books := by
    intro asc
    cases asc <;> exact List.mergeSort_perm books _
  refine ⟨hperm, ?_⟩
  intro hnd
  have htransA : ∀ a b c : Book, ascLe f a b = true → ascLe f b c = true →
      ascLe f a c = true := by
    intro a b c h1 h2
    simp only [ascLe, strLt] at h1 h2 ⊢
    simp only [Bool.not_eq_eq_eq_not, Bool.not_true] at h1 h2 ⊢
    exact chLt_negtrans _ _ _ h1 h2
  have htotalA : ∀ a b : Book, (ascLe f a b || ascLe f b a) = true := by
    intro a b
    simp only [ascLe, strLt]
    cases hx : chLt (sortKeyVal f b).data (sortKeyVal f a).data with
    | false => simp
    | true => simp [chLt_asymm _ _ hx]
  have htransD : ∀ a b c : Book, descLe f a b = true → descLe f b c = true →
      descLe f a c = true := by
    intro a b c h1 h2
    simp only [descLe, strLt] at h1 h2 ⊢
    simp only [Bool.not_eq_eq_eq_not, Bool.not_true] at h1 h2 ⊢
    exact chLt_negtrans _ _ _ h2 h1
  have htotalD : ∀ a b : Book, (descLe f a b || descLe f b a) = true := by
    intro a b
    simp only [descLe, strLt]
    cases hx : chLt (sortKeyVal f a).data (sortKeyVal f b).data with
    | false => simp
    | true => simp [chLt_asymm _ _ hx]
  have hsortedA := List.sorted_mergeSort htransA htotalA books
  have hsortedD := List.sorted_mergeSort htransD htotalD books
  have hsymm : ∀ {x y : Book}, sortKeyVal f x ≠ sortKeyVal f y →
      sortKeyVal f y ≠ sortKeyVal f x := by
    intro x y h
    exact h.symm
  have hndA : List.Pairwise (fun a b => sortKeyVal f a ≠ sortKeyVal f b)
      (books.mergeSort (ascLe f)) :=
    (List.Perm.pairwise_iff hsymm (List.mergeSort_perm books (ascLe f))).mpr hnd
  have hndD : List.Pairwise (fun a b => sortKeyVal f a ≠ sortKeyVal f b)
      (books.mergeSort (descLe f)) :=
    (List.Perm.pairwise_iff hsymm (List.mergeSort_perm books (descLe f))).mpr hnd
  have hstrictA : List.Pairwise
      (fun a b => chLt (sortKeyVal f a).data (sortKeyVal f b).data = true)
      (books.mergeSort (ascLe f)) := by
    refine (hsortedA.and hndA).imp ?_
    intro a b hab
    rcases hab with ⟨hle, hne⟩
    have hle2 : chLt (sortKeyVal f b).data (sortKeyVal f a).data = false := by
      simpa [ascLe, strLt] using hle
    cases hx : chLt (sortKeyVal f a).data (sortKeyVal f b).data with
    | true => rfl
    | false =>
        exfalso
        exact hne (strDataEq _ _ (chLt_total_eq _ _ hx hle2))
  have hstrictD : List.Pairwise
      (fun a b => chLt (sortKeyVal f b).data (sortKeyVal f a).data = true)
      (books.mergeSort (descLe f)) := by
    refine (hsortedD.and hndD).imp ?_
    intro a b hab
    rcases hab with ⟨hle, hne⟩
    have hle2 : chLt (sortKeyVal f a).data (sortKeyVal f b).data = false := by
      simpa [descLe, strLt] using hle
    cases hx : chLt (sortKeyVal f b).data (sortKeyVal f a).data with
    | true => rfl
    | false =>
        exfalso
        exact hne (strDataEq _ _ (chLt_total_eq _ _ hle2 hx))
  have hstrictRevD : List.Pairwise
      (fun a b => chLt (sortKeyVal f a).data (sortKeyVal f b).data = true)
      ((books.mergeSort (descLe f)).reverse) :=
    List.pairwise_reverse.mpr hstrictD
  have hpermAD : (books.mergeSort (ascLe f)).Perm
      ((books.mergeSort (descLe f)).reverse) :=
    (List.mergeSort_perm books (ascLe f)).trans
      ((List.reverse_perm (books.mergeSort (descLe f))).trans
        (List.mergeSort_perm books (descLe f))).symm
  haveI : IsAntisymm Book
      (fun a b => chLt (sortKeyVal f a).data (sortKeyVal f b).data = true) := by
    constructor
    intro a b h1 h2
    exfalso
    have := chLt_asymm _ _ h1
    rw [h2] at this
    cases this
  have heq : books.mergeSort (ascLe f) = (books.mergeSort (descLe f)).reverse :=
    List.eq_of_perm_of_sorted hpermAD hstrictA hstrictRevD
  have hfalse : sortBooks books f false = books.mergeSort (descLe f) := by
    simp [sortBooks]
  have htrue : sortBooks books f true = books.mergeSort (ascLe f) := by
    simp [sortBooks]
  rw [hfalse, htrue, heq, List.reverse_reverse]

/-- C8 witness: applied to a concrete two-book collection with distinct
title keys. -/
theorem sortBooks_perm_and_reverse_witness :
    sortBooks [duneBook, hobbitBook] .title false =
      (sortBooks [duneBook, hobbitBook] .title true).reverse :=
  (sortBooks_perm_and_reverse [duneBook, hobbitBook] .title).2
    (by simp [List.pairwise_cons]; decide)
